import Mathlib

/-!
Verification development for the AI_DB backend (Flask + psycopg2 + Gemini).

The Python sources under `backend/` are shallowly embedded below:
  * `db.py`        : `is_write_query`, `save_message`, `get_chat_history`
  * `nlp_to_sql.py`: history filtering, prompt construction,
                     `generate_sql_from_chat_history`, `maybe_generate_clarifier`,
                     `rewrite_db_error`, `detect_chartable`
  * `app.py`       : the `/confirm`, `/cancel` routes and the write-gate
                     section of `/ask` (pending-query state machine)

External effects (the Gemini gateway, the PostgreSQL connection) are passed
as explicit oracle functions; mutable module state (`pending_queries`, the
`private.chat_messages` table) is passed as explicit values.  Python string
operations are re-implemented over `List Char` so that every definition
reduces inside the kernel.
-/

/-! ## Python-style string primitives -/

/-- Python whitespace characters recognised by `str.strip()` (ASCII subset). -/
def isPySpace (c : Char) : Bool :=
  c == ' ' || c == '\t' || c == '\n' || c == '\r' || c == '\x0b' || c == '\x0c'

/-- Python `str.strip()`: remove leading and trailing whitespace. -/
def pyStrip (s : String) : String :=
  String.mk (((s.data.dropWhile isPySpace).reverse.dropWhile isPySpace).reverse)

/-- Python `str.upper()` (ASCII). -/
def pyUpper (s : String) : String := String.mk (s.data.map Char.toUpper)

/-- Python `str.lower()` (ASCII). -/
def pyLower (s : String) : String := String.mk (s.data.map Char.toLower)

/-- Python `str.capitalize()`: first character upper-cased, rest lower-cased. -/
def pyCapitalize (s : String) : String :=
  match s.data with
  | [] => ""
  | c :: cs => String.mk (c.toUpper :: cs.map Char.toLower)

/-- Substring test on character lists: Python's `needle in hay`. -/
def listContainsSub : List Char → List Char → Bool
  | [], needle => needle.isEmpty
  | c :: t, needle => needle.isPrefixOf (c :: t) || listContainsSub t needle

/-- Python `needle in hay` for strings. -/
def strContainsSub (hay needle : String) : Bool := listContainsSub hay.data needle.data

/-- Python `hay.startswith(pre)`. -/
def strStarts (s pre : String) : Bool := pre.data.isPrefixOf s.data

/-- Python `hay.endswith(suf)`. -/
def strEnds (s suf : String) : Bool := suf.data.isSuffixOf s.data

/-- Python `sep.join(parts)`. -/
def joinWith (sep : String) : List String → String
  | [] => ""
  | [s] => s
  | s :: rest => s ++ sep ++ joinWith sep rest

/-- Python slice `l[-n:]`. -/
def lastN (n : Nat) (l : List α) : List α := l.drop (l.length - n)

/-- Python truthy-`or` on optional strings: `a or b` with `None`/`""` falsy. -/
def pyStrOr (a : Option String) (b : String) : String :=
  match a with
  | some s => if s = "" then b else s
  | none => b

/-- Python truthiness of a string, as an option (`None` for the empty string). -/
def pyTruthy (s : String) : Option String := if s = "" then none else some s

/-- Python f-string rendering of an optional string (`None` renders as "None"). -/
def pyNoneStr (o : Option String) : String :=
  match o with
  | some s => s
  | none => "None"

/-- Replace an optional string by `""` when absent (Python `x or ""`). -/
def orEmpty (o : Option String) : String := o.getD ""

/-- Python `s.replace(".", "", 1)` on a character list. -/
def removeFirstDot : List Char → List Char
  | [] => []
  | c :: t => if c == '.' then t else c :: removeFirstDot t

/-- Specification-level substring containment: `needle` occurs inside `hay`. -/
def HasSub (needle hay : String) : Prop :=
  ∃ l r, hay.data = l ++ (needle.data ++ r)

/-! ## Write Gate (`db.py`, `is_write_query`) -/

/-- The mutating-keyword set of `db.is_write_query` (`db.py` lines 125-128). -/
def writeKeywords : List String :=
  ["INSERT", "UPDATE", "DELETE", "TRUNCATE", "ALTER", "DROP", "CREATE",
   "GRANT", "REVOKE", "EXECUTE", "CALL", "MERGE"]

/-- `db.is_write_query` (`db.py` lines 123-129):
`any(kw in query.upper() for kw in keywords)` — a plain substring scan. -/
def is_write_query (query : String) : Bool :=
  writeKeywords.any (fun kw => strContainsSub (pyUpper query) kw)

/-- A word character for whole-word matching: alphanumeric or underscore. -/
def isWordChar (c : Char) : Bool := c.isAlphanum || c == '_'

/-- Maximal word-character runs of a character list (accumulator holds the
current run, reversed). -/
def splitWordsAux : List Char → List Char → List String
  | [], acc => if acc.isEmpty then [] else [String.mk acc.reverse]
  | c :: t, acc =>
    if isWordChar c then splitWordsAux t (c :: acc)
    else if acc.isEmpty then splitWordsAux t []
    else String.mk acc.reverse :: splitWordsAux t []

/-- The whole words of a string. -/
def wordTokens (s : String) : List String := splitWordsAux s.data []

/-- Specification notion used by the claim: the query contains some mutating
keyword as a case-insensitive whole word. -/
def containsKeywordWord (query : String) : Bool :=
  writeKeywords.any (fun kw => (wordTokens (pyUpper query)).contains kw)

/-! ## Data model for conversation turns and query results -/

/-- A database cell value as it appears in shaped query results.  Python's
`detect_chartable` only inspects the runtime type of a value (`int`/`float`/
`str`/`None`), so a float's magnitude is irrelevant and not carried. -/
inductive Value
  | vint (n : Int)
  | vfloat
  | vstr (s : String)
  | vnull
deriving DecidableEq

/-- The content of a normalized conversation turn: plain text, or a structured
`{"type": "results", ...}` payload (see `app.py` line 390). -/
inductive Content
  | text (s : String)
  | results (sql : String) (columns : List String) (rows : List (List Value))
deriving DecidableEq

/-- A normalized conversation turn as produced by `app.normalize_history`. -/
structure ChatEntry where
  role : String
  content : Content
deriving DecidableEq

/-- Rendering of a turn's content where the Python code reads it as a string.
Structured `results` payloads are removed by `filter_history_for_llm` before
any such read, so they render as the empty string. -/
def getText : Content → String
  | .text s => s
  | .results _ _ _ => ""

/-! ## Schema description (`db.fetch_schema_info` shape) -/

/-- One column of a table: `{"name": ..., "type": ...}`. -/
structure ColumnInfo where
  name : String
  type : String
deriving DecidableEq

/-- One foreign key: `{"column": ..., "ref_table": ..., "ref_column": ...}`. -/
structure FKInfo where
  column : String
  ref_table : String
  ref_column : String
deriving DecidableEq

/-- Per-table schema info. -/
structure TableInfo where
  columns : List ColumnInfo
  primary_key : List String
  foreign_keys : List FKInfo
deriving DecidableEq

/-- A schema description: insertion-ordered mapping table name ↦ info. -/
abbrev Schema := List (String × TableInfo)

/-! ## `nlp_to_sql.filter_history_for_llm` -/

/-- Decide whether `filter_history_for_llm` keeps an entry: structured
`results` payloads are dropped, as are assistant strings that look like JSON
blobs (braces at both trimmed ends) or exceed 2500 characters. -/
def keepEntry (entry : ChatEntry) : Bool :=
  match entry.content with
  | .results _ _ _ => false
  | .text s =>
    let t := pyStrip s
    !(entry.role == "assistant" &&
      ((strStarts t "\x7b" && strEnds t "\x7d") || Nat.blt 2500 t.length))

/-- `nlp_to_sql.filter_history_for_llm` (lines 23-47). -/
def filter_history_for_llm (chat_history : List ChatEntry) : List ChatEntry :=
  chat_history.filter keepEntry

/-! ## `nlp_to_sql.format_schema` -/

/-- Text rendering of one table (body of the loop in `format_schema`). -/
def format_table (table : String) (info : TableInfo) : String :=
  let lines := ["Table: " ++ table]
  let lines := lines ++
    [" Columns: " ++ joinWith ", "
      (info.columns.map (fun c => c.name ++ " (" ++ c.type ++ ")"))]
  let lines := lines ++
    (if info.primary_key.isEmpty then []
     else [" Primary Key: " ++ joinWith ", " info.primary_key])
  let lines := lines ++ info.foreign_keys.map (fun fk =>
    " Foreign Key: " ++ fk.column ++ " -> " ++ fk.ref_table ++ "." ++ fk.ref_column)
  joinWith "\n" lines

/-- `nlp_to_sql.format_schema` (lines 50-74). -/
def format_schema (schema : Schema) : String :=
  if schema.isEmpty then ""
  else joinWith "\n\n" (schema.map (fun p => format_table p.fst p.snd))

/-! ## `nlp_to_sql._strip_markdown_fences`

The Python function extracts the first regex match of
` ```(?:sql)?\s*([\s\S]*?)\s*``` `, removes remaining backtick runs, and
drops a leading "SQL:" label.  The regex semantics are reproduced here over
character lists: the capture is the text between the first fence (after an
optional case-insensitive `sql` tag) and the next fence, trimmed. -/

/-- The backtick character (written via its code point). -/
def tickChar : Char := Char.ofNat 96

/-- Test for a backtick. -/
def isTick (c : Char) : Bool := c.toNat == 96

/-- Characters after the first occurrence of three consecutive backticks. -/
def afterTripleTick : List Char → Option (List Char)
  | a :: b :: c :: rest =>
    if isTick a && isTick b && isTick c then some rest
    else afterTripleTick (b :: c :: rest)
  | _ => none

/-- Consume an optional case-insensitive `sql` tag (regex `(?:sql)?`). -/
def consumeSqlTag : List Char → List Char
  | s :: q :: l :: rest =>
    if s.toLower == 's' && q.toLower == 'q' && l.toLower == 'l' then rest
    else s :: q :: l :: rest
  | l => l

/-- Characters strictly before the next occurrence of three consecutive
backticks (`none` when no closing fence exists). -/
def beforeTripleTick : List Char → Option (List Char)
  | a :: b :: c :: rest =>
    if isTick a && isTick b && isTick c then some []
    else (beforeTripleTick (b :: c :: rest)).map (fun seg => a :: seg)
  | _ => none

/-- First fenced block of `text` (trimmed capture), or `text` when the fence
pattern does not match. -/
def extractFenced (text : String) : String :=
  match afterTripleTick text.data with
  | none => text
  | some rest =>
    match beforeTripleTick (consumeSqlTag rest) with
    | none => text
    | some seg => pyStrip (String.mk seg)

/-- Remove every maximal run of three or more backticks (regex sub of
"```+" by ""); `pending` counts consecutive backticks seen so far. -/
def removeTickRunsAux : List Char → Nat → List Char
  | [], pending => if 3 ≤ pending then [] else List.replicate pending tickChar
  | c :: t, pending =>
    if isTick c then removeTickRunsAux t (pending + 1)
    else
      (if 3 ≤ pending then [] else List.replicate pending tickChar) ++
        (c :: removeTickRunsAux t 0)

/-- Remove backtick runs from a character list. -/
def removeTickRuns (l : List Char) : List Char := removeTickRunsAux l 0

/-- Characters after the first colon (Python `s.split(":", 1)[1]`; the caller
guarantees a colon is present). -/
def afterFirstColon : List Char → List Char
  | [] => []
  | c :: t => if c == ':' then t else afterFirstColon t

/-- `nlp_to_sql._strip_markdown_fences` (lines 76-85). -/
def _strip_markdown_fences (text : String) : String :=
  if text = "" then ""
  else
    let t1 := extractFenced text
    let t2 := String.mk (removeTickRuns t1.data)
    let t3 :=
      if strStarts (pyLower (pyStrip t2)) "sql:" then String.mk (afterFirstColon t2.data)
      else t2
    pyStrip t3

/-! ## Intent heuristics and history helpers (`nlp_to_sql.py`) -/

/-- `nlp_to_sql._is_show_tables_intent` (lines 125-129). -/
def _is_show_tables_intent (text : String) : Bool :=
  if text = "" then false
  else
    let t := pyLower text
    ["show me all tables", "show tables", "list tables", "what tables"].any
      (fun kw => strContainsSub t kw)

/-- `nlp_to_sql._is_write_intent` (lines 131-135). -/
def _is_write_intent (text : String) : Bool :=
  if text = "" then false
  else
    let t := pyLower text
    ["add ", "insert ", "create ", "update ", "delete ", "remove ", "add:"].any
      (fun kw => strContainsSub t kw)

/-- Scan entries (already reversed) for the first one whose text mentions a
known table name; inner loop of `_find_table_in_history`.  Python iterates
the table names as a `set`, whose order is unspecified; schema insertion
order is used here. -/
def findTableAux (tables : List String) : List ChatEntry → Option String
  | [] => none
  | e :: rest =>
    let text := pyLower (getText e.content)
    match tables.find? (fun t => strContainsSub text t) with
    | some t => some t
    | none => findTableAux tables rest

/-- `nlp_to_sql._find_table_in_history` (lines 114-123): most recently
mentioned known table among the last 8 entries. -/
def _find_table_in_history (schema : Schema) (chat_history : List ChatEntry) :
    Option String :=
  if schema.isEmpty || chat_history.isEmpty then none
  else findTableAux (schema.map (fun p => pyLower p.fst)) (lastN 8 chat_history).reverse

/-- The operative request: last `user`-role turn's text, with fallback to the
last turn overall (lines 143-149 of `generate_sql_from_chat_history`);
`none` models Python's `last_user = None`. -/
def last_user_opt (filtered : List ChatEntry) : Option String :=
  let fromUser :=
    match filtered.reverse.find? (fun e => e.role == "user") with
    | some e => pyTruthy (getText e.content)
    | none => none
  match fromUser with
  | some s => some s
  | none =>
    match filtered.getLast? with
    | some e => pyTruthy (getText e.content)
    | none => none

/-- Role-prefixed transcript of the last six filtered turns (lines 152-157). -/
def chat_str_of (filtered : List ChatEntry) : String :=
  joinWith "\n"
    ((lastN 6 filtered).map (fun e => pyCapitalize e.role ++ ": " ++ getText e.content))

/-- The operative request after the write-intent disambiguation hint
(lines 166-169): when the request has mutation intent and does not already
name a known table, the most recently mentioned table is appended. -/
def operativeUser (schema : Schema) (filtered : List ChatEntry) : Option String :=
  let lu := last_user_opt filtered
  if _is_write_intent (orEmpty lu) then
    match _find_table_in_history schema filtered with
    | some t =>
      if t != "" && !strContainsSub (orEmpty lu) t then
        some (pyNoneStr lu ++ " into " ++ t)
      else lu
    | none => lu
  else lu

/-! ## Prompt construction and the SQL Synthesizer -/

/-- The synthesis prompt of `generate_sql_from_chat_history` (lines 172-187),
after the trailing `.strip()`. -/
def synthPrompt (schema : Schema) (filtered : List ChatEntry)
    (last_user : Option String) : String :=
  "You are an expert SQL assistant.\nDatabase Schema:\n" ++ format_schema schema ++
  "\nConversation (recent):\n" ++ chat_str_of filtered ++
  "\nLatest user question:\n" ++ pyNoneStr last_user ++
  "\nInstructions:\n- Produce ONE valid PostgreSQL query that answers ONLY the latest user question.\n- Ignore any prior assistant-generated SQL in the conversation; do NOT repeat or re-run old queries.\n- Use ONLY tables and columns from the schema above.\n- Do NOT add explanation or commentary — return only the raw SQL (no markdown fences).\nIf the user asked for a schema-level action like \"show me all tables\", return a query against information_schema\nthat lists table names (e.g. SELECT table_name FROM information_schema.tables WHERE table_schema = 'public';)."

/-- The gateway prompt actually sent for a given history and schema. -/
def mainPrompt (chat_history : List ChatEntry) (schema : Schema) : String :=
  synthPrompt schema (filter_history_for_llm chat_history)
    (operativeUser schema (filter_history_for_llm chat_history))

/-- The fixed catalog-introspection query returned for list-tables intent
(line 165). -/
def showTablesQuery : String :=
  "SELECT table_name FROM information_schema.tables WHERE table_schema = 'public' ORDER BY table_name;"

/-- Lower-cased table and column names of the schema (lines 198-206). -/
def schema_tokens_of (schema : Schema) : List String :=
  schema.foldr
    (fun p acc => pyLower p.fst :: p.snd.columns.map (fun c => pyLower c.name) ++ acc)
    []

/-- Sanity check of line 208: some non-empty schema token occurs in the
lower-cased SQL. -/
def sqlGrounded (schema : Schema) (sql : String) : Bool :=
  (schema_tokens_of schema).any (fun tok => tok != "" && strContainsSub (pyLower sql) tok)

/-- The synthesis-failure string of line 219 (carries the original SQL). -/
def errUngrounded (sql : String) : String :=
  "Error: Generated SQL does not reference known tables/columns from the schema. SQL: " ++ sql

/-- Result of the Synthesizer: the returned string, plus the list of prompts
sent to the Text-Generation Gateway (in order). -/
structure SynthOut where
  result : String
  prompts : List String
deriving DecidableEq

/-- `nlp_to_sql.generate_sql_from_chat_history` (lines 137-222).  The gateway
`model.generate_content` is the oracle `gen`; `Except.error` models a raised
exception, whose message Python interpolates into `f"Error: {str(e)}"`. -/
def generate_sql_from_chat_history (gen : String → Except String String)
    (chat_history : List ChatEntry) (schema : Schema) : SynthOut :=
  let filtered := filter_history_for_llm chat_history
  if _is_show_tables_intent (orEmpty (last_user_opt filtered)) then
    ⟨showTablesQuery, []⟩
  else
    let prompt := mainPrompt chat_history schema
    match gen prompt with
    | .error e => ⟨"Error: " ++ e, [prompt]⟩
    | .ok raw =>
      let sql := _strip_markdown_fences (pyStrip raw)
      if schema.isEmpty then ⟨sql, [prompt]⟩
      else if sqlGrounded schema sql then ⟨sql, [prompt]⟩
      else
        match _find_table_in_history schema filtered with
        | some t =>
          if t != "" then
            let rp := prompt ++ "\n\nHint: Use table " ++ t ++ " when generating SQL."
            match gen rp with
            | .error _ => ⟨errUngrounded sql, [prompt, rp]⟩
            | .ok rraw =>
              let rsql := _strip_markdown_fences (pyStrip rraw)
              if sqlGrounded schema rsql then ⟨rsql, [prompt, rp]⟩
              else ⟨errUngrounded sql, [prompt, rp]⟩
          else ⟨errUngrounded sql, [prompt]⟩
        | none => ⟨errUngrounded sql, [prompt]⟩

/-! ## Clarifier Gate (`nlp_to_sql.maybe_generate_clarifier`) -/

/-- The clarifier prompt (lines 238-253), after the trailing `.strip()`. -/
def clarifierPrompt (user_question : String) (schema : Schema)
    (filtered : List ChatEntry) : String :=
  let convo := if filtered.isEmpty then "" else chat_str_of filtered
  "You are an expert assistant helping convert natural language into SQL.\nDatabase Schema:\n" ++
  format_schema schema ++ "\nConversation so far:\n" ++ convo ++
  "\nUser just asked: \"" ++ user_question ++
  "\"\nTask:\n- If the user question is clear and specific enough to generate SQL directly, answer with: CLEAR\n- If the question is vague, incomplete, or ambiguous, output a short clarifying question to ask the user.\nExamples of clarifying questions:\n- \"Which table should I use to fetch 'records'?\"\n- \"Do you mean all orders, or only recent ones?\"\n- \"Should I include inactive private.users or only active ones?\"\nAnswer:"

/-- `nlp_to_sql.maybe_generate_clarifier` (lines 224-266): `none` means
"no clarification needed"; a gateway failure is swallowed into `none`. -/
def maybe_generate_clarifier (gen : String → Except String String)
    (user_question : String) (schema : Schema) (chat_history : List ChatEntry) :
    Option String :=
  let filtered := filter_history_for_llm chat_history
  match gen (clarifierPrompt user_question schema filtered) with
  | .error _ => none
  | .ok raw =>
    let text := pyStrip raw
    if strStarts (pyUpper text) "CLEAR" then none else some text

/-! ## Error Humanizer (`nlp_to_sql.rewrite_db_error`) -/

/-- The error-explanation prompt (lines 281-291), after `.strip()`. -/
def errorPrompt (error_message : String) (filtered : List ChatEntry) : String :=
  let chat_str := joinWith "\n" (filtered.map (fun e =>
    pyCapitalize (if e.role = "" then "assistant" else e.role) ++ ": " ++ getText e.content))
  "You are an assistant helping a user query a PostgreSQL database via natural language.\nConversation so far:\n" ++
  chat_str ++ "\nThe database returned this error:\n" ++ error_message ++
  "\nTask:\n- Explain the error in plain English (user-friendly).\n- If it looks like a typo or missing table/column, suggest a correction.\n- Keep it short and conversational."

/-- `nlp_to_sql.rewrite_db_error` (lines 268-301): on gateway failure falls
back to `f"An error occurred: {error_message}"`. -/
def rewrite_db_error (gen : String → Except String String)
    (error_message : String) (chat_history : List ChatEntry) : String :=
  let filtered := filter_history_for_llm chat_history
  match gen (errorPrompt error_message filtered) with
  | .ok raw => pyStrip raw
  | .error _ => "An error occurred: " ++ error_message

/-! ## Chartability detector (`nlp_to_sql.detect_chartable`) -/

/-- Python `str.isdigit()` after `replace(".", "", 1)`: the numeric-looking
string test of line 345. -/
def pyIsDigitStr (s : String) : Bool :=
  let l := removeFirstDot s.data
  !l.isEmpty && l.all Char.isDigit

/-- The per-value numeric test of lines 344-346 (applied to non-null values). -/
def isNumericValue : Value → Bool
  | .vint _ => true
  | .vfloat => true
  | .vstr s => pyIsDigitStr s
  | .vnull => false

/-- `[r[1] for r in rows]`: `none` models the `IndexError` raised when some
row has fewer than two entries (caught by the `except` on line 348). -/
def secondValues : List (List Value) → Option (List Value)
  | [] => some []
  | r :: rest =>
    match r[1]? with
    | none => none
    | some v => (secondValues rest).map (fun vs => v :: vs)

/-- `nlp_to_sql.detect_chartable` (lines 337-352). -/
def detect_chartable (columns : List String) (rows : List (List Value)) :
    Bool × Option String :=
  if columns.isEmpty || rows.isEmpty then (false, none)
  else if columns.length < 2 then (false, none)
  else
    let numeric :=
      match secondValues (rows.take 10) with
      | none => false
      | some vs => (vs.filter (fun v => v != Value.vnull)).all isNumericValue
    if !numeric then (false, none) else (true, some "bar")

/-- Specification-level chart eligibility: at least two columns, at least one
row, and every present second-column value among the first ten rows is null
or numeric. -/
def chartEligible (columns : List String) (rows : List (List Value)) : Bool :=
  decide (2 ≤ columns.length) && !rows.isEmpty &&
  (rows.take 10).all (fun r =>
    match r[1]? with
    | some v => v == Value.vnull || isNumericValue v
    | none => true)

/-! ## Pending-query table and the confirm/cancel routes (`app.py`) -/

/-- A `pending_queries` entry: `{"sql": ..., "user_id": ...}` (app.py 369). -/
structure PendingEntry where
  sql : String
  user_id : String
deriving DecidableEq

/-- The module-level `pending_queries` dict, as an insertion-ordered map from
session key to entry. -/
abbrev PendingMap := List (String × PendingEntry)

/-- Dict lookup `m.get(k)`. -/
def pmLookup : PendingMap → String → Option PendingEntry
  | [], _ => none
  | p :: t, k => if p.fst == k then some p.snd else pmLookup t k

/-- Dict removal `m.pop(k, None)`. -/
def pmErase : PendingMap → String → PendingMap
  | [], _ => []
  | p :: t, k => if p.fst == k then pmErase t k else p :: pmErase t k

/-- Dict assignment `m[k] = v`: replace the binding in place, or append a new
binding at the end (dict insertion order). -/
def pmInsert : PendingMap → String → PendingEntry → PendingMap
  | [], k, v => [(k, v)]
  | p :: t, k, v => if p.fst == k then (k, v) :: t else p :: pmInsert t k v

/-- Outcome of `db.execute_query` as seen by the routes: shaped results, or a
raised exception carrying the driver message. -/
inductive ExecOutcome
  | ok (columns : List String) (rows : List (List Value))
  | err (msg : String)

/-- JSON body of a `/confirm` or `/cancel` request (absent keys are `none`). -/
structure ReqBody where
  session_id : Option String
  sessionId : Option String
  decision : Option String
deriving DecidableEq

/-- Session-key resolution of app.py lines 425 and 470:
`data.get('session_id') or data.get('sessionId') or 'default'`. -/
def sessionOf (body : ReqBody) : String :=
  pyStrOr body.session_id (pyStrOr body.sessionId "default")

/-- Decision normalisation of app.py line 426: `(data.get('decision') or '').lower()`. -/
def decisionOf (body : ReqBody) : String := pyLower (pyStrOr body.decision "")

/-- Observable outcome of a confirm/cancel route call: HTTP status, error
message (if any), the pending table afterwards, and the SQL string passed to
`execute_query` (if execution was attempted). -/
structure RouteResult where
  status : Nat
  error : Option String
  pending : PendingMap
  executedSql : Option String
deriving DecidableEq

/-- `app.confirm_query` (`/confirm`, app.py lines 421-463).  `auth_identity`
is the JWT identity of the caller (available via `get_jwt_identity`, but
never read by this route); `exec` is the `execute_query` oracle; `humanize`
stands for `rewrite_db_error` applied to the current history. -/
def confirm_route (auth_identity : String) (exec : String → ExecOutcome)
    (humanize : String → String) (pending : PendingMap) (body : ReqBody) :
    RouteResult :=
  let session_id := sessionOf body
  let decision := decisionOf body
  match pmLookup pending session_id with
  | none => ⟨400, some "No pending query for this session", pending, none⟩
  | some entry =>
    if decision != "yes" && decision != "no" then
      ⟨400, some "Decision must be 'yes' or 'no'", pending, none⟩
    else if decision == "no" then
      ⟨200, none, pmErase pending session_id, none⟩
    else
      match exec entry.sql with
      | .ok _ _ => ⟨200, none, pmErase pending session_id, some entry.sql⟩
      | .err m => ⟨500, some (humanize m), pending, some entry.sql⟩

/-- `app.cancel_query` (`/cancel`, app.py lines 466-477). -/
def cancel_route (auth_identity : String) (pending : PendingMap)
    (body : ReqBody) : RouteResult :=
  let session_id := sessionOf body
  match pmLookup pending session_id with
  | none => ⟨400, some "No pending query for this session", pending, none⟩
  | some _ => ⟨200, none, pmErase pending session_id, none⟩

/-- Outcome of the write-gate section of `/ask`. -/
inductive AskGateOutcome
  | forbidden
  | confirmationRequested (sql : String)
  | proceedExecute (sql : String)
deriving DecidableEq

/-- The write-gate section of `app.ask` (app.py lines 363-372): a mutating
statement from a non-admin is rejected; an admin's mutating statement is
stored in `pending_queries` keyed by the JWT identity `user_id`; a read-only
statement proceeds to execution. -/
def ask_write_gate (pending : PendingMap) (user_id : String)
    (user_role : Option String) (sql_query : String) :
    PendingMap × AskGateOutcome :=
  if is_write_query sql_query then
    if user_role != some "admin" then (pending, .forbidden)
    else (pmInsert pending user_id ⟨sql_query, user_id⟩, .confirmationRequested sql_query)
  else (pending, .proceedExecute sql_query)

/-! ## The chat-message store (`db.save_message`, `db.get_chat_history`)

`private.chat_messages` has a UNIQUE constraint on `message_id` and a
`timestamp TIMESTAMPTZ DEFAULT now()` column; `save_message` runs
`INSERT ... ON CONFLICT (message_id) DO UPDATE SET content, role, session_id`.
The table is modelled as a row list in insertion order; the upsert updates
the matching row in place (leaving `user_id` and the creation timestamp
untouched) or appends a fresh row stamped with the current clock. -/

/-- One row of `private.chat_messages`. -/
structure MsgRow where
  user_id : String
  message_id : String
  content : String
  role : String
  session_id : Option String
  created_at : Nat
deriving DecidableEq

/-- `db.save_message` (db.py lines 35-72).  `now` is the database clock used
for the `DEFAULT now()` timestamp; `fresh` is the `uuid.uuid4()` fallback
used when `message_id` is absent or empty (`message_id or str(uuid.uuid4())`). -/
def save_message (db : List MsgRow) (now : Nat) (fresh : String)
    (user_id : String) (message_id : Option String) (content : String)
    (role : String) (session_id : Option String) : List MsgRow :=
  let mid := pyStrOr message_id fresh
  if db.any (fun r => r.message_id == mid) then
    db.map (fun r =>
      if r.message_id == mid then
        { r with content := content, role := role, session_id := session_id }
      else r)
  else
    db ++ [⟨user_id, mid, content, role, session_id, now⟩]

/-- Stable insertion by `created_at` (ties keep earlier-inserted rows first). -/
def insertByTime (r : MsgRow) : List MsgRow → List MsgRow
  | [] => [r]
  | x :: t => if r.created_at < x.created_at then r :: x :: t else x :: insertByTime r t

/-- Stable sort by `created_at`, modelling `ORDER BY created_at ASC`. -/
def sortByCreated : List MsgRow → List MsgRow
  | [] => []
  | r :: t => insertByTime r (sortByCreated t)

/-- One parsed message of `get_chat_history`'s result. -/
structure ChatMsg where
  message_id : String
  content : String
  role : String
  timestamp : Nat
deriving DecidableEq

/-- The per-row parsing step of `get_chat_history` (db.py lines 92-104). -/
def msgOf (r : MsgRow) : ChatMsg := ⟨r.message_id, r.content, r.role, r.created_at⟩

/-- `db.get_chat_history` (db.py lines 75-108): the caller's rows, ordered by
creation time. -/
def get_chat_history (db : List MsgRow) (user_id : String) : List ChatMsg :=
  (sortByCreated (db.filter (fun r => r.user_id == user_id))).map msgOf

/-! ## Sample inputs used by witnesses -/

/-- A one-table schema (`users(id, email)`) for concrete witnesses. -/
def sampleSchema : Schema :=
  [("users", ⟨[⟨"id", "integer"⟩, ⟨"email", "text"⟩], ["id"], []⟩)]

/-- A one-turn history whose request mentions no table name. -/
def sampleHistory : List ChatEntry := [⟨"user", Content.text "show data please"⟩]

/-- A gateway that always answers with SQL naming an unknown table. -/
def ungroundedGen : String → Except String String :=
  fun _ => Except.ok "SELECT * FROM nonexistent_table;"

/-- A gateway that always fails. -/
def failingGen : String → Except String String := fun _ => Except.error "gateway down"

/-! ## Helper lemmas -/

/-- Concatenation of strings concatenates the underlying character lists. -/
theorem dataAppend (s t : String) : (s ++ t).data = s.data ++ t.data := by
  cases s; cases t; rfl

/-- `List.isPrefixOf` agrees with existence of a completing suffix. -/
theorem isPrefixOf_iff_append (l₁ l₂ : List Char) :
    l₁.isPrefixOf l₂ = true ↔ ∃ r, l₂ = l₁ ++ r := by
  induction l₁ generalizing l₂ with
  | nil => simp [List.isPrefixOf]
  | cons a as ih =>
    cases l₂ with
    | nil => simp [List.isPrefixOf]
    | cons b bs =>
      simp only [List.isPrefixOf, Bool.and_eq_true, beq_iff_eq, ih, List.cons_append]
      constructor
      · rintro ⟨rfl, r, rfl⟩
        exact ⟨r, rfl⟩
      · rintro ⟨r, h⟩
        injection h with h1 h2
        exact ⟨h1.symm, r, h2⟩

/-- The substring scan agrees with existence of a decomposition. -/
theorem listContainsSub_iff (h n : List Char) :
    listContainsSub h n = true ↔ ∃ l r, h = l ++ (n ++ r) := by
  induction h with
  | nil =>
    simp only [listContainsSub, List.isEmpty_iff]
    constructor
    · rintro rfl
      exact ⟨[], [], rfl⟩
    · rintro ⟨l, r, hl⟩
      rcases List.append_eq_nil.mp hl.symm with ⟨rfl, h2⟩
      rcases List.append_eq_nil.mp h2 with ⟨rfl, rfl⟩
      rfl
  | cons c t ih =>
    simp only [listContainsSub, Bool.or_eq_true, isPrefixOf_iff_append, ih]
    constructor
    · rintro (⟨r, hr⟩ | ⟨l, r, hr⟩)
      · exact ⟨[], r, by simpa using hr⟩
      · exact ⟨c :: l, r, by simp [hr]⟩
    · rintro ⟨l, r, hr⟩
      cases l with
      | nil => exact Or.inl ⟨r, by simpa using hr⟩
      | cons x l =>
        injection hr with h1 h2
        exact Or.inr ⟨l, r, h2⟩

/-- Every token produced by the word splitter occurs inside the scanned text
(prefixed by the pending accumulator). -/
theorem splitWordsAux_mem (cs : List Char) (acc : List Char) (t : String)
    (h : t ∈ splitWordsAux cs acc) :
    ∃ l r, acc.reverse ++ cs = l ++ (t.data ++ r) := by
  induction cs generalizing acc with
  | nil =>
    rw [splitWordsAux] at h
    split at h
    · simp at h
    · rw [List.mem_singleton] at h
      subst h
      exact ⟨[], [], by simp⟩
  | cons c cs ih =>
    rw [splitWordsAux] at h
    split at h
    · obtain ⟨l, r, hl⟩ := ih (c :: acc) h
      refine ⟨l, r, ?_⟩
      simpa [List.append_assoc] using hl
    · split at h
      · obtain ⟨l, r, hl⟩ := ih [] h
        refine ⟨acc.reverse ++ (c :: l), r, ?_⟩
        simp only [List.reverse_nil, List.nil_append] at hl
        simp [hl, List.append_assoc]
      · rcases List.mem_cons.mp h with rfl | hmem
        · exact ⟨[], c :: cs, by simp⟩
        · obtain ⟨l, r, hl⟩ := ih [] hmem
          refine ⟨acc.reverse ++ (c :: l), r, ?_⟩
          simp only [List.reverse_nil, List.nil_append] at hl
          simp [hl, List.append_assoc]

/-- A string starting with `pre` still starts with `pre` after appending. -/
theorem strStarts_append_left (a b pre : String) (h : strStarts a pre = true) :
    strStarts (a ++ b) pre = true := by
  rw [strStarts, isPrefixOf_iff_append] at h ⊢
  obtain ⟨r, hr⟩ := h
  exact ⟨r ++ b.data, by simp [dataAppend, hr]⟩

/-- Erasing a key removes it from lookup. -/
theorem pmLookup_pmErase_self (m : PendingMap) (k : String) :
    pmLookup (pmErase m k) k = none := by
  induction m with
  | nil => rfl
  | cons p t ih =>
    by_cases hk : p.fst = k
    · simpa [pmErase, hk] using ih
    · simpa [pmErase, pmLookup, hk] using ih

/-- Inserting a key makes it the lookup result. -/
theorem pmLookup_pmInsert_self (m : PendingMap) (k : String) (v : PendingEntry) :
    pmLookup (pmInsert m k v) k = some v := by
  induction m with
  | nil => simp [pmInsert, pmLookup]
  | cons p t ih =>
    by_cases hk : p.fst = k
    · simp [pmInsert, pmLookup, hk]
    · simpa [pmInsert, pmLookup, hk] using ih

/-! ## C1 — Write Gate classification -/

/-- C1 (amended): the Write Gate is total and lexical, but its check is a
case-insensitive SUBSTRING scan, not a whole-word match: `is_write_query`
returns true exactly when some keyword of the set occurs anywhere inside the
upper-cased query; in particular every whole-word occurrence is classified
mutating. -/
theorem C1_writeGate_amended (q : String) :
    (containsKeywordWord q = true → is_write_query q = true) ∧
    (is_write_query q = true ↔ ∃ kw, kw ∈ writeKeywords ∧ HasSub kw (pyUpper q)) := by
  have hiff : is_write_query q = true ↔
      ∃ kw, kw ∈ writeKeywords ∧ HasSub kw (pyUpper q) := by
    rw [is_write_query, List.any_eq_true]
    constructor
    · rintro ⟨kw, hkw, hc⟩
      exact ⟨kw, hkw, (listContainsSub_iff _ _).mp hc⟩
    · rintro ⟨kw, hkw, hsub⟩
      exact ⟨kw, hkw, (listContainsSub_iff _ _).mpr hsub⟩
  refine ⟨?_, hiff⟩
  intro h
  rw [containsKeywordWord, List.any_eq_true] at h
  obtain ⟨kw, hkw, hc⟩ := h
  have hmem : kw ∈ wordTokens (pyUpper q) := by
    simpa using hc
  obtain ⟨l, r, hl⟩ := splitWordsAux_mem (pyUpper q).data [] kw (by simpa [wordTokens] using hmem)
  exact hiff.mpr ⟨kw, hkw, l, r, by simpa using hl⟩

/-- C1 (counterexample): the read-only direction of the claim fails —
`SELECT update_count FROM t` contains no mutating keyword as a whole word,
yet `is_write_query` classifies it as mutating (substring `UPDATE` inside
`UPDATE_COUNT`). -/
theorem C1_writeGate_counterexample :
    containsKeywordWord "SELECT update_count FROM t" = false ∧
    is_write_query "SELECT update_count FROM t" = true := by decide

/-- C1 witness: a genuine whole-word mutating statement is classified
mutating via the amended theorem. -/
theorem C1_writeGate_witness :
    is_write_query "DROP TABLE accounts" = true ∧
    containsKeywordWord "DROP TABLE accounts" = true :=
  ⟨(C1_writeGate_amended "DROP TABLE accounts").1 (by decide), by decide⟩

/-! ## C2 — confirm with decision `yes` -/

/-- C2 (amended): for a session with a pending entry, a confirm with decision
`yes` executes the stored SQL, but the pending entry is removed only when the
execution succeeds; when execution raises, the route returns the humanized
error and the pending entry REMAINS in the table. -/
theorem C2_confirmYes_amended (auth : String) (exec : String → ExecOutcome)
    (humanize : String → String) (pending : PendingMap) (body : ReqBody)
    (entry : PendingEntry)
    (hpend : pmLookup pending (sessionOf body) = some entry)
    (hyes : decisionOf body = "yes") :
    (confirm_route auth exec humanize pending body).executedSql = some entry.sql ∧
    (∀ cols rows, exec entry.sql = .ok cols rows →
      (confirm_route auth exec humanize pending body).pending =
        pmErase pending (sessionOf body) ∧
      pmLookup (confirm_route auth exec humanize pending body).pending
        (sessionOf body) = none) ∧
    (∀ m, exec entry.sql = .err m →
      (confirm_route auth exec humanize pending body).pending = pending) := by
  have hred : confirm_route auth exec humanize pending body =
      match exec entry.sql with
      | .ok _ _ => ⟨200, none, pmErase pending (sessionOf body), some entry.sql⟩
      | .err m => ⟨500, some (humanize m), pending, some entry.sql⟩ := by
    simp only [confirm_route, hpend, hyes]
    rw [if_neg (by decide), if_neg (by decide)]
  rw [hred]
  refine ⟨?_, ?_, ?_⟩
  · cases hx : exec entry.sql <;> simp
  · intro cols rows hok
    rw [hok]
    exact ⟨rfl, pmLookup_pmErase_self _ _⟩
  · intro m herr
    rw [herr]

/-- C2 (counterexample): when the confirmed execution raises, the pending
entry is NOT removed — after a failing `yes`, the same session still holds
the same pending query, contradicting "removed regardless of outcome". -/
theorem C2_confirmYes_counterexample :
    (confirm_route "alice" (fun _ => ExecOutcome.err "connection refused")
        (fun m => m) [("alice", ⟨"DROP TABLE users", "alice"⟩)]
        ⟨some "alice", none, some "yes"⟩).executedSql = some "DROP TABLE users" ∧
    pmLookup (confirm_route "alice" (fun _ => ExecOutcome.err "connection refused")
        (fun m => m) [("alice", ⟨"DROP TABLE users", "alice"⟩)]
        ⟨some "alice", none, some "yes"⟩).pending "alice"
      = some ⟨"DROP TABLE users", "alice"⟩ := by decide

/-- C2 witness: a successful `yes` executes the stored SQL and clears the
pending entry (decision string case-normalised from "YES"). -/
theorem C2_confirmYes_witness :
    (confirm_route "alice" (fun _ => ExecOutcome.ok [] []) (fun m => m)
        [("alice", ⟨"DELETE FROM logs", "alice"⟩)]
        ⟨some "alice", none, some "YES"⟩).executedSql = some "DELETE FROM logs" ∧
    pmLookup (confirm_route "alice" (fun _ => ExecOutcome.ok [] []) (fun m => m)
        [("alice", ⟨"DELETE FROM logs", "alice"⟩)]
        ⟨some "alice", none, some "YES"⟩).pending
      (sessionOf ⟨some "alice", none, some "YES"⟩) = none := by
  have h := C2_confirmYes_amended "alice" (fun _ => ExecOutcome.ok [] []) (fun m => m)
    [("alice", ⟨"DELETE FROM logs", "alice"⟩)] ⟨some "alice", none, some "YES"⟩
    ⟨"DELETE FROM logs", "alice"⟩ (by decide) (by decide)
  exact ⟨h.1, (h.2.1 [] [] rfl).2⟩

/-! ## C3 — confirm/cancel with no pending entry -/

/-- C3: a confirm or cancel for a session key with no pending entry returns
the invalid-state error (HTTP 400, "No pending query for this session") and
changes nothing — no execution, identical pending table; and once a cancel
has consumed a session's pending entry, a subsequent `yes` for that session
again returns the invalid-state error. -/
theorem C3_invalidState (auth : String) (exec : String → ExecOutcome)
    (humanize : String → String) (pending : PendingMap) (body : ReqBody) :
    (pmLookup pending (sessionOf body) = none →
      confirm_route auth exec humanize pending body =
        ⟨400, some "No pending query for this session", pending, none⟩ ∧
      cancel_route auth pending body =
        ⟨400, some "No pending query for this session", pending, none⟩) ∧
    (∀ entry, pmLookup pending (sessionOf body) = some entry →
      cancel_route auth pending body =
        ⟨200, none, pmErase pending (sessionOf body), none⟩ ∧
      confirm_route auth exec humanize (pmErase pending (sessionOf body)) body =
        ⟨400, some "No pending query for this session",
          pmErase pending (sessionOf body), none⟩) := by
  constructor
  · intro h
    constructor
    · simp only [confirm_route, h]
    · simp only [cancel_route, h]
  · intro entry h
    constructor
    · simp only [cancel_route, h]
    · simp only [confirm_route, pmLookup_pmErase_self]

/-- C3 witness: a `yes` for an unknown session is rejected without touching
state, and a `yes` replayed after a cancel consumed the entry is rejected
the same way. -/
theorem C3_invalidState_witness :
    confirm_route "u" (fun _ => ExecOutcome.ok [] []) (fun m => m)
        [("s1", ⟨"DELETE FROM t", "s1"⟩)] ⟨some "s2", none, some "yes"⟩ =
      ⟨400, some "No pending query for this session",
        [("s1", ⟨"DELETE FROM t", "s1"⟩)], none⟩ ∧
    confirm_route "u" (fun _ => ExecOutcome.ok [] []) (fun m => m)
        (pmErase [("s1", ⟨"DELETE FROM t", "s1"⟩)]
          (sessionOf ⟨some "s1", none, some "yes"⟩))
        ⟨some "s1", none, some "yes"⟩ =
      ⟨400, some "No pending query for this session",
        pmErase [("s1", ⟨"DELETE FROM t", "s1"⟩)]
          (sessionOf ⟨some "s1", none, some "yes"⟩), none⟩ := by
  refine ⟨((C3_invalidState "u" (fun _ => ExecOutcome.ok [] []) (fun m => m)
      [("s1", ⟨"DELETE FROM t", "s1"⟩)] ⟨some "s2", none, some "yes"⟩).1
        (by decide)).1, ?_⟩
  exact ((C3_invalidState "u" (fun _ => ExecOutcome.ok [] []) (fun m => m)
      [("s1", ⟨"DELETE FROM t", "s1"⟩)] ⟨some "s1", none, some "yes"⟩).2
    ⟨"DELETE FROM t", "s1"⟩ (by decide)).2

/-! ## C10 — pending entry keyed by request body, not by JWT identity -/

/-- C10: confirm and cancel select the pending entry solely from the request
body's session key (defaulting to the literal "default"), independently of
the authenticated JWT identity, while `/ask` stores pending entries keyed by
the JWT identity — so any authenticated caller who supplies another user's
identity as `session_id` confirms (executes) or cancels that user's pending
mutating query. -/
theorem C10_sessionConfusion (a1 a2 : String) (exec : String → ExecOutcome)
    (humanize : String → String) (pending : PendingMap) (body : ReqBody)
    (victim attacker : String) (sql : String) :
    (confirm_route a1 exec humanize pending body =
      confirm_route a2 exec humanize pending body) ∧
    (cancel_route a1 pending body = cancel_route a2 pending body) ∧
    (body.session_id = none → body.sessionId = none → sessionOf body = "default") ∧
    (is_write_query sql = true → victim ≠ "" →
      (ask_write_gate pending victim (some "admin") sql).snd =
        AskGateOutcome.confirmationRequested sql ∧
      (confirm_route attacker exec humanize
          (ask_write_gate pending victim (some "admin") sql).fst
          ⟨some victim, none, some "yes"⟩).executedSql = some sql ∧
      (cancel_route attacker (ask_write_gate pending victim (some "admin") sql).fst
          ⟨some victim, none, some "yes"⟩).pending =
        pmErase (ask_write_gate pending victim (some "admin") sql).fst victim) := by
  refine ⟨rfl, rfl, ?_, ?_⟩
  · intro h1 h2
    rcases body with ⟨s1, s2, d⟩
    cases h1
    cases h2
    rfl
  · intro hw hv
    have hgate : ask_write_gate pending victim (some "admin") sql =
        (pmInsert pending victim ⟨sql, victim⟩,
          AskGateOutcome.confirmationRequested sql) := by
      simp [ask_write_gate, hw]
    have hsess : sessionOf ⟨some victim, none, some "yes"⟩ = victim := by
      simp [sessionOf, pyStrOr, hv]
    have hdec : decisionOf ⟨some victim, none, some "yes"⟩ = "yes" := rfl
    refine ⟨by rw [hgate], ?_, ?_⟩
    · rw [hgate]
      simp only [confirm_route, hsess, hdec, pmLookup_pmInsert_self]
      rw [if_neg (by decide), if_neg (by decide)]
      cases hx : exec sql <;> rfl
    · rw [hgate]
      simp only [cancel_route, hsess, pmLookup_pmInsert_self]

/-- C10 witness: with an empty pending table, admin `alice` parks a mutating
statement via `/ask`; authenticated caller `mallory` confirms it by naming
`alice` as the body session key, and the stored SQL is executed. -/
theorem C10_sessionConfusion_witness :
    (confirm_route "mallory" (fun _ => ExecOutcome.ok [] []) (fun m => m)
        (ask_write_gate [] "alice" (some "admin") "DELETE FROM users").fst
        ⟨some "alice", none, some "yes"⟩).executedSql = some "DELETE FROM users" ∧
    sessionOf ⟨none, none, some "yes"⟩ = "default" := by
  have h := C10_sessionConfusion "a" "b" (fun _ => ExecOutcome.ok [] []) (fun m => m)
    [] ⟨none, none, some "yes"⟩ "alice" "mallory" "DELETE FROM users"
  exact ⟨(h.2.2.2 (by decide) (by decide)).2.1, h.2.2.1 rfl rfl⟩

/-! ## C4 — Synthesizer grounding validation -/

/-- Error strings built by `errUngrounded` carry the "Error:" marker. -/
theorem errUngrounded_startsError (s : String) :
    strStarts (errUngrounded s) "Error:" = true :=
  strStarts_append_left _ s "Error:" (by decide)

/-- Exception strings `f"Error: {e}"` carry the "Error:" marker. -/
theorem errString_startsError (e : String) :
    strStarts ("Error: " ++ e) "Error:" = true :=
  strStarts_append_left "Error: " e "Error:" (by decide)

/-- C4: when the generated SQL references no schema token and no retry-hint
table exists in the filtered history, the Synthesizer returns the
synthesis-failure string carrying the original generated SQL; it sends at
most two gateway prompts (one retry), the retry prompt appends a hint naming
the table found in recent history, and whenever it returns a non-"Error:"
result for a non-empty schema it is schema-grounded. -/
theorem C4_ungroundedFailure (gen : String → Except String String)
    (chat_history : List ChatEntry) (schema : Schema) (raw : String) :
    (_is_show_tables_intent
        (orEmpty (last_user_opt (filter_history_for_llm chat_history))) = false →
     gen (mainPrompt chat_history schema) = Except.ok raw →
     sqlGrounded schema (_strip_markdown_fences (pyStrip raw)) = false →
     _find_table_in_history schema (filter_history_for_llm chat_history) = none →
     schema.isEmpty = false →
      generate_sql_from_chat_history gen chat_history schema =
        ⟨errUngrounded (_strip_markdown_fences (pyStrip raw)),
         [mainPrompt chat_history schema]⟩ ∧
      HasSub (_strip_markdown_fences (pyStrip raw))
        (errUngrounded (_strip_markdown_fences (pyStrip raw)))) ∧
    ((generate_sql_from_chat_history gen chat_history schema).prompts.length ≤ 2) ∧
    (schema.isEmpty = false →
     _is_show_tables_intent
        (orEmpty (last_user_opt (filter_history_for_llm chat_history))) = false →
     strStarts (generate_sql_from_chat_history gen chat_history schema).result
       "Error:" = false →
      sqlGrounded schema
        (generate_sql_from_chat_history gen chat_history schema).result = true) ∧
    (∀ t : String,
     _is_show_tables_intent
        (orEmpty (last_user_opt (filter_history_for_llm chat_history))) = false →
     gen (mainPrompt chat_history schema) = Except.ok raw →
     sqlGrounded schema (_strip_markdown_fences (pyStrip raw)) = false →
     schema.isEmpty = false →
     _find_table_in_history schema (filter_history_for_llm chat_history) = some t →
     t ≠ "" →
      (generate_sql_from_chat_history gen chat_history schema).prompts =
        [mainPrompt chat_history schema,
         mainPrompt chat_history schema ++ "\n\nHint: Use table " ++ t ++
           " when generating SQL."]) := by
  refine ⟨?_, ?_, ?_, ?_⟩
  · intro h1 h2 h3 h4 h5
    refine ⟨?_, ?_⟩
    · simp [generate_sql_from_chat_history, h1, h2, h3, h4, h5]
    · exact ⟨("Error: Generated SQL does not reference known tables/columns from the schema. SQL: ").data,
        [], by simp [errUngrounded, dataAppend]⟩
  · unfold generate_sql_from_chat_history
    dsimp only
    split
    · simp
    · split
      · simp
      · split
        · simp
        · split
          · simp
          · split
            · split
              · split <;> (try split) <;> simp
              · simp
            · simp
  · intro h5 h1 herr
    revert herr
    unfold generate_sql_from_chat_history
    dsimp only
    rw [h1]
    simp only [Bool.false_eq_true, if_false]
    cases hg : gen (mainPrompt chat_history schema) with
    | error e =>
      intro herr
      dsimp only at herr
      simp [errString_startsError] at herr
    | ok raw2 =>
      rw [h5]
      simp only [Bool.false_eq_true, if_false]
      split
      · intro _
        assumption
      · split
        · split
          · split <;> (try split) <;> intro herr <;> dsimp only at herr ⊢ <;>
              first
                | assumption
                | simp [errUngrounded_startsError] at herr
          · intro herr
            dsimp only at herr
            simp [errUngrounded_startsError] at herr
        · intro herr
          dsimp only at herr
          simp [errUngrounded_startsError] at herr
  · intro t h1 h2 h3 h5 hfind ht
    simp only [generate_sql_from_chat_history, h1, h2, h3, h5, hfind,
      Bool.false_eq_true, if_false]
    rw [if_pos (by simp [ht])]
    cases hrp : gen (mainPrompt chat_history schema ++ "\n\nHint: Use table " ++ t ++
        " when generating SQL.") with
    | error e => rfl
    | ok rraw =>
      dsimp only
      split <;> rfl

/-- C4 witness: a gateway answering `SELECT * FROM nonexistent_table;`
against the `users(id, email)` schema, with no table mentioned in history,
yields the synthesis-failure string carrying that SQL after one prompt. -/
theorem C4_ungroundedFailure_witness :
    generate_sql_from_chat_history ungroundedGen sampleHistory sampleSchema =
      ⟨errUngrounded (_strip_markdown_fences
        (pyStrip "SELECT * FROM nonexistent_table;")),
       [mainPrompt sampleHistory sampleSchema]⟩ ∧
    (generate_sql_from_chat_history ungroundedGen sampleHistory
      sampleSchema).prompts.length ≤ 2 := by
  have h := C4_ungroundedFailure ungroundedGen sampleHistory sampleSchema
    "SELECT * FROM nonexistent_table;"
  exact ⟨(h.1 (by decide) rfl (by decide) (by decide) (by decide)).1, h.2.1⟩

/-! ## C6 — list-tables short-circuit -/

/-- C6: when the operative request matches a list-tables pattern, the
Synthesizer returns exactly the fixed catalog-introspection query and sends
no gateway prompt at all. -/
theorem C6_showTables (gen : String → Except String String)
    (chat_history : List ChatEntry) (schema : Schema)
    (h : _is_show_tables_intent
      (orEmpty (last_user_opt (filter_history_for_llm chat_history))) = true) :
    generate_sql_from_chat_history gen chat_history schema =
      ⟨"SELECT table_name FROM information_schema.tables WHERE table_schema = 'public' ORDER BY table_name;",
       []⟩ := by
  simp [generate_sql_from_chat_history, h, showTablesQuery]

/-- C6 witness: the utterance "show me all tables" short-circuits even a
failing gateway and yields exactly the catalog query. -/
theorem C6_showTables_witness :
    generate_sql_from_chat_history failingGen
      [⟨"user", Content.text "show me all tables"⟩] sampleSchema =
      ⟨"SELECT table_name FROM information_schema.tables WHERE table_schema = 'public' ORDER BY table_name;",
       []⟩ :=
  C6_showTables failingGen [⟨"user", Content.text "show me all tables"⟩]
    sampleSchema (by decide)

/-! ## C8 — Clarifier Gate -/

/-- C8 (amended): the Clarifier Gate returns `none` exactly when the
whitespace-TRIMMED gateway response begins with `CLEAR` case-insensitively;
otherwise it returns the TRIMMED response text (not the raw response
verbatim); any gateway failure yields `none` (fail open). -/
theorem C8_clarifier (gen : String → Except String String) (q : String)
    (schema : Schema) (hist : List ChatEntry) :
    (∀ raw, gen (clarifierPrompt q schema (filter_history_for_llm hist)) =
        Except.ok raw →
      maybe_generate_clarifier gen q schema hist =
        (if strStarts (pyUpper (pyStrip raw)) "CLEAR" then none
         else some (pyStrip raw))) ∧
    (∀ e, gen (clarifierPrompt q schema (filter_history_for_llm hist)) =
        Except.error e →
      maybe_generate_clarifier gen q schema hist = none) := by
  constructor
  · intro raw h
    simp [maybe_generate_clarifier, h]
  · intro e h
    simp [maybe_generate_clarifier, h]

/-- C8 (counterexample): the response " CLEAR" does NOT begin with `CLEAR`
(case-insensitively) because of the leading space, yet the gate returns
`none` — the code strips the response before testing, so "none exactly when
the response begins with CLEAR" is false as stated (and the non-`none`
output is the trimmed text, not the verbatim response). -/
theorem C8_clarifier_counterexample :
    maybe_generate_clarifier (fun _ => Except.ok " CLEAR") "q" [] [] = none ∧
    strStarts (pyUpper " CLEAR") "CLEAR" = false := by decide

/-- C8 witness: a clarifying answer is passed through (trimmed), and a
gateway failure yields `none`. -/
theorem C8_clarifier_witness :
    maybe_generate_clarifier (fun _ => Except.ok "Which table do you mean?")
      "q" sampleSchema [] = some "Which table do you mean?" ∧
    maybe_generate_clarifier failingGen "q" sampleSchema [] = none := by
  constructor
  · have h := (C8_clarifier (fun _ => Except.ok "Which table do you mean?")
      "q" sampleSchema []).1 "Which table do you mean?" rfl
    rw [h]
    decide
  · exact (C8_clarifier failingGen "q" sampleSchema []).2 "gateway down" rfl

/-! ## C9 — Error Humanizer -/

/-- C9 (amended): the Error Humanizer is total (the embedding returns a
string on every path); when the gateway call fails it returns the raw
database error text embedded verbatim behind the fixed prefix
"An error occurred: " — not the raw text alone; on success it returns the
trimmed gateway response. -/
theorem C9_humanizer (gen : String → Except String String) (msg : String)
    (hist : List ChatEntry) :
    (∀ e, gen (errorPrompt msg (filter_history_for_llm hist)) = Except.error e →
      rewrite_db_error gen msg hist = "An error occurred: " ++ msg ∧
      HasSub msg (rewrite_db_error gen msg hist)) ∧
    (∀ raw, gen (errorPrompt msg (filter_history_for_llm hist)) = Except.ok raw →
      rewrite_db_error gen msg hist = pyStrip raw) := by
  constructor
  · intro e h
    have hr : rewrite_db_error gen msg hist = "An error occurred: " ++ msg := by
      simp [rewrite_db_error, h]
    refine ⟨hr, ?_⟩
    rw [hr]
    exact ⟨("An error occurred: ").data, [], by simp [dataAppend]⟩
  · intro raw h
    simp [rewrite_db_error, h]

/-- C9 (counterexample): on gateway failure the result is
`"An error occurred: boom"`, which is not the raw error text `"boom"`
verbatim. -/
theorem C9_humanizer_counterexample :
    rewrite_db_error failingGen "boom" [] = "An error occurred: boom" ∧
    rewrite_db_error failingGen "boom" [] ≠ "boom" := by decide

/-- C9 witness: the fallback result for a failing gateway on a concrete
error message. -/
theorem C9_humanizer_witness :
    rewrite_db_error failingGen "relation missing" [] =
      "An error occurred: relation missing" :=
  ((C9_humanizer failingGen "relation missing" []).1 "gateway down" rfl).1

/-! ## C5 — message_id upsert in the conversation store -/

/-- Inserting a row in timestamp order is a permutation of consing it. -/
theorem insertByTime_perm (r : MsgRow) (l : List MsgRow) :
    List.Perm (insertByTime r l) (r :: l) := by
  induction l with
  | nil => exact List.Perm.refl _
  | cons x t ih =>
    rw [insertByTime]
    split
    · exact List.Perm.refl _
    · exact ((ih.cons x).trans (List.Perm.swap r x t))

/-- The timestamp sort permutes its input. -/
theorem sortByCreated_perm (l : List MsgRow) :
    List.Perm (sortByCreated l) l := by
  induction l with
  | nil => exact List.Perm.refl _
  | cons r t ih => exact (insertByTime_perm r (sortByCreated t)).trans (ih.cons r)

/-- The upsert's UPDATE pass leaves rows with other message ids untouched. -/
theorem map_upd_eq_self (db : List MsgRow) (mid : String) (c r : String)
    (sid : Option String)
    (h : db.any (fun x => x.message_id == mid) = false) :
    db.map (fun x =>
      if x.message_id == mid then
        { x with content := c, role := r, session_id := sid }
      else x) = db := by
  induction db with
  | nil => rfl
  | cons x t ih =>
    rw [List.any_cons, Bool.or_eq_false_iff] at h
    rw [List.map_cons, if_neg (by simp [h.1]), ih h.2]

/-- Parsed messages of rows with other message ids never match the id. -/
theorem filter_msgOf_nomatch (l : List MsgRow) (mid : String)
    (h : ∀ x ∈ l, (x.message_id == mid) = false) :
    ((l.map msgOf).filter (fun m => m.message_id == mid)) = [] := by
  induction l with
  | nil => rfl
  | cons x t ih =>
    rw [List.map_cons, List.filter_cons, if_neg]
    · exact ih (fun y hy => h y (List.mem_cons_of_mem x hy))
    · simp [msgOf, h x (List.mem_cons_self x t)]

/-- C5: appending a second turn with an already-stored `message_id` (and
different content/role) updates that row in place: the table keeps exactly
one row for the id — at the original position with the original creation
timestamp `t1` — holding the latest content, role and session; consequently
the stored conversation contains exactly one turn for that `message_id`,
with the latest content and role and the original timestamp. -/
theorem C5_messageUpsert (db : List MsgRow) (user mid c1 r1 c2 r2 : String)
    (sid1 sid2 : Option String) (t1 t2 : Nat) (f1 f2 : String)
    (hmid : mid ≠ "")
    (hnew : db.any (fun x => x.message_id == mid) = false) :
    save_message (save_message db t1 f1 user (some mid) c1 r1 sid1)
        t2 f2 user (some mid) c2 r2 sid2 =
      db ++ [⟨user, mid, c2, r2, sid2, t1⟩] ∧
    (get_chat_history
        (save_message (save_message db t1 f1 user (some mid) c1 r1 sid1)
          t2 f2 user (some mid) c2 r2 sid2) user).filter
      (fun m => m.message_id == mid) = [⟨mid, c2, r2, t1⟩] := by
  have hq : pyStrOr (some mid) f1 = mid := by simp [pyStrOr, hmid]
  have hq2 : pyStrOr (some mid) f2 = mid := by simp [pyStrOr, hmid]
  have hs1 : save_message db t1 f1 user (some mid) c1 r1 sid1 =
      db ++ [⟨user, mid, c1, r1, sid1, t1⟩] := by
    rw [save_message, hq, if_neg (by simp [hnew])]
  have hany : (db ++ [(⟨user, mid, c1, r1, sid1, t1⟩ : MsgRow)]).any
      (fun x => x.message_id == mid) = true := by
    simp [List.any_append]
  have hs2 : save_message (save_message db t1 f1 user (some mid) c1 r1 sid1)
      t2 f2 user (some mid) c2 r2 sid2 = db ++ [⟨user, mid, c2, r2, sid2, t1⟩] := by
    rw [hs1, save_message, hq2, if_pos (by simp [hany]), List.map_append,
      map_upd_eq_self db mid c2 r2 sid2 hnew]
    simp
  refine ⟨hs2, ?_⟩
  rw [hs2]
  unfold get_chat_history
  have hfil : (db ++ [(⟨user, mid, c2, r2, sid2, t1⟩ : MsgRow)]).filter
      (fun r => r.user_id == user) =
      db.filter (fun r => r.user_id == user) ++ [⟨user, mid, c2, r2, sid2, t1⟩] := by
    rw [List.filter_append]
    simp
  rw [hfil]
  have hperm := ((sortByCreated_perm
      (db.filter (fun r => r.user_id == user) ++
        [⟨user, mid, c2, r2, sid2, t1⟩])).map msgOf).filter
    (fun m => m.message_id == mid)
  have hno : ∀ x ∈ db, (x.message_id == mid) = false := by
    intro x hx
    cases hb : (x.message_id == mid) with
    | false => rfl
    | true =>
      have hc : db.any (fun y => y.message_id == mid) = true :=
        List.any_eq_true.mpr ⟨x, hx, hb⟩
      rw [hnew] at hc
      exact absurd hc (by simp)
  have hr : (((db.filter (fun r => r.user_id == user) ++
      [(⟨user, mid, c2, r2, sid2, t1⟩ : MsgRow)]).map msgOf).filter
      (fun m => m.message_id == mid)) = [⟨mid, c2, r2, t1⟩] := by
    rw [List.map_append, List.filter_append,
      filter_msgOf_nomatch _ mid
        (fun x hx => hno x (List.mem_of_mem_filter hx))]
    simp [msgOf]
  exact List.perm_singleton.mp (hr ▸ hperm)

/-- C5 witness: two appends with the same message id on an empty table leave
one row holding the latest content and role at the first append's timestamp,
and the stored conversation shows exactly that turn. -/
theorem C5_messageUpsert_witness :
    save_message (save_message [] 1 "uuid1" "u1" (some "m1") "hello" "user" (some "u1"))
        2 "uuid2" "u1" (some "m1") "edited" "assistant" (some "u1") =
      [] ++ [⟨"u1", "m1", "edited", "assistant", some "u1", 1⟩] ∧
    (get_chat_history
        (save_message (save_message [] 1 "uuid1" "u1" (some "m1") "hello" "user" (some "u1"))
          2 "uuid2" "u1" (some "m1") "edited" "assistant" (some "u1")) "u1").filter
      (fun m => m.message_id == "m1") = [⟨"m1", "edited", "assistant", 1⟩] :=
  C5_messageUpsert [] "u1" "m1" "hello" "user" "edited" "assistant"
    (some "u1") (some "u1") 1 2 "uuid1" "uuid2" (by decide) (by decide)

/-! ## C7 — chartability detector -/

/-- When each of the sampled rows has a second entry, the sampled-column
extraction succeeds and the filtered numeric test agrees with a pointwise
"null or numeric" test over the rows. -/
theorem secondValues_of_wf (l : List (List Value)) (h : ∀ r ∈ l, 2 ≤ r.length) :
    ∃ vs, secondValues l = some vs ∧
      ((vs.filter (fun v => v != Value.vnull)).all isNumericValue =
        l.all (fun r =>
          match r[1]? with
          | some v => v == Value.vnull || isNumericValue v
          | none => true)) := by
  induction l with
  | nil => exact ⟨[], rfl, by simp⟩
  | cons r rest ih =>
    have h2 : 2 ≤ r.length := h r (List.mem_cons_self r rest)
    have hv : r[1]? = some r[1] := List.getElem?_eq_getElem (by omega)
    obtain ⟨vs, hvs, hall⟩ := ih (fun x hx => h x (List.mem_cons_of_mem r hx))
    refine ⟨r[1] :: vs, ?_, ?_⟩
    · rw [secondValues, hv, hvs]
      rfl
    · rw [List.all_cons, hv]
      simp only [bne] at hall ⊢
      cases hveq : (r[1] == Value.vnull) with
      | true =>
        have hn : r[1] = Value.vnull := by simpa using hveq
        simp [List.filter_cons, hn, hall]
      | false =>
        simp [List.filter_cons, hveq, hall]

/-- C7: on well-formed results (each row has at least two entries) the
detector returns `(true, "bar")` exactly when there are at least two columns,
at least one row, and every non-null second-column value among the first ten
rows is an integer, a float, or a numeric-looking string — and `(false,
none)` otherwise.  The claim's two concrete examples are included. -/
theorem C7_chartable (columns : List String) (rows : List (List Value))
    (hwf : ∀ r ∈ rows, 2 ≤ r.length) :
    detect_chartable columns rows =
      (if chartEligible columns rows then (true, some "bar") else (false, none)) ∧
    detect_chartable ["month", "count"]
      [[Value.vstr "Jan", Value.vint 5], [Value.vstr "Feb", Value.vint 7]] =
      (true, some "bar") ∧
    detect_chartable ["month", "count"]
      [[Value.vstr "Jan", Value.vstr "x"], [Value.vstr "Feb", Value.vstr "y"]] =
      (false, none) := by
  refine ⟨?_, by decide, by decide⟩
  by_cases h1 : rows.isEmpty
  · have : rows = [] := by simpa [List.isEmpty_iff] using h1
    subst this
    simp [detect_chartable, chartEligible]
  · have hre : rows.isEmpty = false := by
      cases hb : rows.isEmpty
      · rfl
      · exact absurd hb h1
    by_cases h2 : columns.length < 2
    · have hn : ¬ (2 ≤ columns.length) := by omega
      by_cases h3 : columns.isEmpty <;>
        simp [detect_chartable, chartEligible, h1, h2, h3, hn]
    · have hcols : columns.isEmpty = false := by
        cases columns with
        | nil => simp at h2
        | cons a t => rfl
      obtain ⟨vs, hvs, hall⟩ := secondValues_of_wf (rows.take 10)
        (fun r hr => hwf r (List.mem_of_mem_take hr))
      have hlen : decide (2 ≤ columns.length) = true := by
        simp only [decide_eq_true_eq]
        omega
      cases hnum : (rows.take 10).all (fun r =>
          match r[1]? with
          | some v => v == Value.vnull || isNumericValue v
          | none => true) with
      | true =>
        have hfilt : (vs.filter (fun v => v != Value.vnull)).all isNumericValue = true := by
          rw [hall, hnum]
        have hdet : detect_chartable columns rows = (true, some "bar") := by
          rw [detect_chartable, if_neg (by simp [hcols, hre]), if_neg h2, hvs]
          dsimp only
          rw [hfilt]
          simp
        have helig : chartEligible columns rows = true := by
          rw [chartEligible, hlen, hre, hnum]
          rfl
        rw [hdet, helig]
        simp
      | false =>
        have hfilt : (vs.filter (fun v => v != Value.vnull)).all isNumericValue = false := by
          rw [hall, hnum]
        have hdet : detect_chartable columns rows = (false, none) := by
          rw [detect_chartable, if_neg (by simp [hcols, hre]), if_neg h2, hvs]
          dsimp only
          rw [hfilt]
          simp
        have helig : chartEligible columns rows = false := by
          rw [chartEligible, hlen, hre, hnum]
          rfl
        rw [hdet, helig]
        simp

/-- C7 witness: the claim's two examples, obtained through the theorem with
the well-formedness hypothesis discharged concretely. -/
theorem C7_chartable_witness :
    detect_chartable ["month", "count"]
      [[Value.vstr "Jan", Value.vint 5], [Value.vstr "Feb", Value.vint 7]] =
      (true, some "bar") ∧
    detect_chartable ["month", "count"]
      [[Value.vstr "Jan", Value.vstr "x"], [Value.vstr "Feb", Value.vstr "y"]] =
      (false, none) :=
  ⟨(C7_chartable ["month", "count"]
      [[Value.vstr "Jan", Value.vint 5], [Value.vstr "Feb", Value.vint 7]]
      (by decide)).2.1,
   (C7_chartable ["month", "count"]
      [[Value.vstr "Jan", Value.vstr "x"], [Value.vstr "Feb", Value.vstr "y"]]
      (by decide)).2.2⟩
